import Mathlib

/-!
Verification of the Jwaneng dashboard's data-preparation and aggregation
pipeline (src/jwaneng_dashboard.py).  The script loads two CSV tables
(transactions `df`, SME loans `sme_df`), coerces any `date` column to
timestamps floored to whole seconds, and renders a fixed catalog of
aggregation views plus a generic user-driven explorer.

The embedding models a pandas DataFrame as a list of column names and a
list of rows of cells; column access that can raise `KeyError` returns
`Except`; the streamlit script body is a sequence of such accesses, so a
whole tab is a function into `Except String`.  Aggregations (groupby-sum,
cumulative sum, value counts) are translated from the call sites.
-/

namespace Jwaneng

/-- Scalar value of one DataFrame cell: null (NaN/NaT), a numeric value,
a timestamp (whole seconds since the epoch, the result of
`pd.to_datetime(...).dt.floor('s')`), or raw text. -/
inductive Cell where
  | null : Cell
  | num : ℚ → Cell
  | ts : ℤ → Cell
  | text : String → Cell
deriving DecidableEq, Repr

/-- Numeric reading of a cell, as pandas sums see it: numbers are
themselves, timestamps their epoch seconds, null and text contribute 0
(pandas skips NaN in sums). -/
def Cell.qval : Cell → ℚ
  | .num q => q
  | .ts t => (t : ℚ)
  | _ => 0

/-- Total order on cells used when a groupby sorts its keys (pandas
`groupby(..., sort=True)`): within a kind the natural order, across kinds
a fixed rank. -/
def Cell.leb : Cell → Cell → Bool
  | .null, _ => true
  | _, .null => false
  | .num a, .num b => decide (a ≤ b)
  | .num _, _ => true
  | _, .num _ => false
  | .ts a, .ts b => decide (a ≤ b)
  | .ts _, _ => true
  | _, .ts _ => false
  | .text a, .text b => decide (a ≤ b)

/-- In-memory table: ordered column names and rows of cells (row r, column
j holds `r.getD j .null`). -/
structure DataFrame where
  cols : List String
  rows : List (List Cell)
deriving DecidableEq, Repr

/-- The zero-row, zero-column table `pd.DataFrame()`. -/
def emptyDF : DataFrame := ⟨[], []⟩

/-- Index of a column name, as positional lookup into each row. -/
def DataFrame.colIdx (df : DataFrame) (c : String) : ℕ := df.cols.indexOf c

/-- Whether the table is empty in the pandas sense (`df.empty`): one of the
axes has length zero. -/
def DataFrame.isEmpty (df : DataFrame) : Bool :=
  df.rows.isEmpty || df.cols.isEmpty

/-- Column extraction ignoring existence (used where the caller already
validated the name against `df.columns`, e.g. the explorer's selectboxes). -/
def DataFrame.colD (df : DataFrame) (c : String) : List Cell :=
  df.rows.map (fun r => r.getD (df.colIdx c) Cell.null)

/-- Column access as the script performs it (`df[c]`): raises `KeyError`
when the column does not exist. -/
def DataFrame.col (df : DataFrame) (c : String) : Except String (List Cell) :=
  if c ∈ df.cols then .ok (df.colD c) else .error ("KeyError: " ++ c)

/-- Rewrite one column in place (`df[c] = f(df[c])`), leaving every other
column untouched. -/
def DataFrame.mapCol (df : DataFrame) (c : String) (f : Cell → Cell) : DataFrame :=
  ⟨df.cols,
   df.rows.map (fun r => r.set (df.colIdx c) (f (r.getD (df.colIdx c) Cell.null)))⟩

/-- Row filter pattern `df[df[c] == v]`. -/
def DataFrame.filterEq (df : DataFrame) (c : String) (v : Cell) : DataFrame :=
  ⟨df.cols, df.rows.filter (fun r => r.getD (df.colIdx c) Cell.null = v)⟩

/-- Helper to safely load CSVs (`load_csv`): a missing file gives the empty
frame plus a warning, an empty frame read from an existing file warns but is
returned as read.  The `source` is the file's parsed content, `none` when
the file does not exist; the second component collects `st.warning` texts. -/
def load_csv (source : Option DataFrame) : DataFrame × List String :=
  match source with
  | none => (emptyDF, ["File not found"])
  | some d => (d, if d.isEmpty then ["File is empty"] else [])

/-- One cell of a `date` column after
`pd.to_datetime(col, errors='coerce').dt.floor('s')`: `parse` stands for
the library's text-to-timestamp parse (seconds, possibly fractional);
a parse failure becomes null, a success is floored to a whole second. -/
def coerceDateCell (parse : Cell → Option ℚ) (c : Cell) : Cell :=
  match parse c with
  | some t => Cell.ts t.floor
  | none => Cell.null

/-- The date-coercion block: when a column named `date` exists it is mapped
through `coerceDateCell`, otherwise the frame is unchanged; no other column
is touched. -/
def coerceDates (parse : Cell → Option ℚ) (df : DataFrame) : DataFrame :=
  if ("date" ∈ df.cols) then df.mapCol ("date") (coerceDateCell parse) else df

/-- Sum of the measure over the rows of `l` whose (optional) grouping key
equals `k` — the value a groupby-sum assigns to group `k`. -/
def subsum {K : Type} [DecidableEq K] (l : List (Option K × ℚ)) (k : K) : ℚ :=
  ((l.filter (fun p => p.1 = some k)).map Prod.snd).sum

/-- Distinct non-null grouping keys of `l`, sorted by `leb` — pandas
`groupby` drops null keys and sorts the remaining distinct keys. -/
def groupKeys {K : Type} [DecidableEq K] (leb : K → K → Bool)
    (l : List (Option K × ℚ)) : List K :=
  List.insertionSort (fun a b => leb a b = true) ((l.filterMap Prod.fst).dedup)

/-- The `groupby(key)[measure].sum().reset_index()` pattern: one output row
per distinct non-null key, carrying the per-key sum of the measure. -/
def groupbySum {K : Type} [DecidableEq K] (leb : K → K → Bool)
    (l : List (Option K × ℚ)) : List (K × ℚ) :=
  (groupKeys leb l).map (fun k => (k, subsum l k))

/-- Running totals of a list starting from `acc` (pandas `cumsum`): the
i-th output is `acc` plus the sum of the first i+1 inputs. -/
def runningTotals (acc : ℚ) : List ℚ → List ℚ
  | [] => []
  | y :: t => (acc + y) :: runningTotals (acc + y) t

/-- The cumulative branch of the explorer: group by key, sum the measure,
then replace each sum by its running total over the sorted keys. -/
def cumulativeSum {K : Type} [DecidableEq K] (leb : K → K → Bool)
    (l : List (Option K × ℚ)) : List (K × ℚ) :=
  let g := groupbySum leb l
  (g.map Prod.fst).zip (runningTotals 0 (g.map Prod.snd))

/-- Key/measure pairs a `df.groupby(x)[y].sum()` call site works on: the x
cell of each row as grouping key (null becomes a dropped `none` key) and
the numeric reading of the y cell as measure. -/
def keyedPairs (df : DataFrame) (x y : String) : List (Option Cell × ℚ) :=
  ((df.colD x).zip ((df.colD y).map Cell.qval)).map
    (fun p => (if p.1 = Cell.null then none else some p.1, p.2))

/-- The `series.value_counts()` pattern: count occurrences of each distinct
non-null value, ranked by descending count. -/
def value_counts (l : List Cell) : List (Cell × ℕ) :=
  List.insertionSort (fun a b => b.2 ≤ a.2)
    (((l.filter (fun c => c ≠ Cell.null)).dedup).map (fun v => (v, l.count v)))

/-- Tab 1, chart 1 (Payroll Trend): compute `df["category"].unique()`
(raising `KeyError` when the column is absent), and when `"salary"` occurs,
filter to the salary rows and group-by-sum `amount` over `date`; the chart
is skipped (`none`) when no salary row exists.  The output is exactly the
plotted per-date sums — the source applies no rolling window. -/
def chart1Payroll (df : DataFrame) : Except String (Option (List (Cell × ℚ))) := do
  let cats ← df.col ("category")
  if (Cell.text ("salary") ∈ cats.dedup) then
    let pdf := df.filterEq ("category") (Cell.text ("salary"))
    let _ ← pdf.col ("date")
    let _ ← pdf.col ("amount")
    pure (some (groupbySum Cell.leb (keyedPairs pdf ("date") ("amount"))))
  else
    pure none

/-- The three SME charts of tab 1 (charts 4–6): the financing trend is
guarded on the frame being non-empty and on the `date` column existing; the
credit-score histogram and the repayment-status counts are each guarded on
their own column.  A guarded-out chart is `none`. -/
def smeSection (sme : DataFrame) :
    Except String (Option (List (Cell × ℚ)) × Option (List Cell) × Option (List (Cell × ℕ))) := do
  let trend ← (if (sme.isEmpty = false ∧ "date" ∈ sme.cols) then do
      let _ ← sme.col ("loan_amount")
      pure (some (groupbySum Cell.leb (keyedPairs sme ("date") ("loan_amount"))))
    else pure none)
  let credit ← (if ("credit_score" ∈ sme.cols) then do
      let cs ← sme.col ("credit_score")
      pure (some cs)
    else pure none)
  let rep ← (if ("repayment_status" ∈ sme.cols) then do
      let rs ← sme.col ("repayment_status")
      pure (some (value_counts rs))
    else pure none)
  return (trend, credit, rep)

/-- The data computed by the nine Key Insights charts of tab 1, in source
order; a chart behind a false guard is `none`. -/
structure Tab1View where
  payroll : Option (List (Cell × ℚ))
  channelUsage : List (Cell × ℕ)
  amounts : List Cell
  smeTrend : Option (List (Cell × ℚ))
  creditScores : Option (List Cell)
  repayment : Option (List (Cell × ℕ))
  gender : Option (List Cell)
  payrollByEmployee : Option (List (Cell × ℚ))
  byCategory : List (Cell × ℕ)
deriving DecidableEq, Repr

/-- Tab 1 (Key Insights) as the script runs it: charts 1, 2, 3 and 9 access
columns of `df` unconditionally (`df["category"]`, `df["channel"]`,
`df["amount"]`), so a missing column aborts the whole tab with the
propagated `KeyError`; charts 4–8 are individually guarded. -/
def tab1KeyInsights (df sme : DataFrame) : Except String Tab1View := do
  let payroll ← chart1Payroll df
  let ch ← df.col ("channel")
  let am ← df.col ("amount")
  let (smeTrend, creditScores, repayment) ← smeSection sme
  let gender := if ("gender" ∈ df.cols) then some (df.colD ("gender")) else none
  let payrollEmp ← (if ("is_mine_employee" ∈ df.cols) then do
      let _ ← df.col ("category")
      let pdf := df.filterEq ("category") (Cell.text ("salary"))
      let _ ← pdf.col ("amount")
      pure (some (groupbySum Cell.leb (keyedPairs pdf ("is_mine_employee") ("amount"))))
    else pure none)
  let cat ← df.col ("category")
  return ⟨payroll, value_counts ch, am, smeTrend, creditScores, repayment,
          gender, payrollEmp, value_counts cat⟩

/-- Condition reported by a statistical operator instead of a result. -/
inductive StatCondition where
  | insufficientSample
deriving DecidableEq, Repr

/-- Mean of a numeric sample. -/
def sampleMean (s : List ℚ) : ℚ := s.sum / (s.length : ℚ)

/-- Unbiased sample variance (divides by n − 1). -/
def sampleVar (s : List ℚ) : ℚ :=
  ((s.map (fun x => (x - sampleMean s) ^ 2)).sum) / ((s.length : ℚ) - 1)

/-- Outcome of the two-sample mean-difference test: the mean difference and
the square of Welch's t statistic (the statistic itself is its signed
square root; squaring keeps the value rational). -/
structure WelchOutcome where
  meanDiff : ℚ
  tsq : ℚ
deriving DecidableEq, Repr

/-- Modelled from the spec: the two-sample mean-difference test (spec
§4.2e) appears in no file under `src/` — only this single-script iteration
is in the repository — so Welch's unequal-variance t-test and its
`InsufficientSample` guard are modelled from the spec's words: if either
sample has fewer than 2 observations the test reports `InsufficientSample`
rather than computing a statistic; otherwise the statistic is
(mean₁ − mean₂) / sqrt(s₁²/n₁ + s₂²/n₂). -/
def welchTest (s1 s2 : List ℚ) : Except StatCondition WelchOutcome :=
  if s1.length < 2 ∨ s2.length < 2 then .error .insufficientSample
  else
    .ok ⟨sampleMean s1 - sampleMean s2,
         (sampleMean s1 - sampleMean s2) ^ 2 /
           (sampleVar s1 / (s1.length : ℚ) + sampleVar s2 / (s2.length : ℚ))⟩

/-- Chart kinds of the EDA explorer's selectbox. -/
inductive ChartType where
  | scatter
  | line
  | bar
  | cumBar
  | cumLine
  | histogram
  | pie
  | box
  | violin
deriving DecidableEq, Repr

/-- The chart types handled by the explorer's first branch, which also
requires a y column (`["Scatter", "Line", "Bar", "Cumulative Bar",
"Cumulative Line"]`). -/
def mainTypes : List ChartType :=
  [ChartType.scatter, ChartType.line, ChartType.bar, ChartType.cumBar, ChartType.cumLine]

/-- A chart handed to the presentation layer: its plotly kind, the frame it
plots, and the axis mapping. -/
structure Chart where
  kind : ChartType
  data : DataFrame
  xcol : String
  ycol : Option String
deriving DecidableEq, Repr

/-- The cumulative aggregation of the explorer
(`groupby(x)[y].sum().reset_index()` followed by `cumsum` on y), as a
two-column frame. -/
def edaCumAgg (df : DataFrame) (x y : String) : DataFrame :=
  ⟨[x, y], (cumulativeSum Cell.leb (keyedPairs df x y)).map (fun p => [p.1, Cell.num p.2])⟩

/-- The explorer's chart dispatch (tab 2): the first branch handles the five
main types and fires only when a y column is supplied, optionally replacing
the plotted frame by the cumulative aggregation when the `Cumulative?`
checkbox is ticked and the type is one of the two cumulative ones;
histogram and pie need only x; box and violin silently require y.  `none`
is the `fig = None` fall-through. -/
def edaChart (df : DataFrame) (x : String) (y : Option String)
    (ct : ChartType) (cumulative : Bool) : Option Chart :=
  if hy : ct ∈ mainTypes ∧ y.isSome then
    let yv := y.get hy.2
    let plotDf :=
      if cumulative = true ∧ (ct = ChartType.cumBar ∨ ct = ChartType.cumLine) then
        edaCumAgg df x yv
      else df
    if ct = ChartType.scatter then some ⟨ChartType.scatter, plotDf, x, some yv⟩
    else if ct = ChartType.line ∨ ct = ChartType.cumLine then
      some ⟨ChartType.line, plotDf, x, some yv⟩
    else some ⟨ChartType.bar, plotDf, x, some yv⟩
  else if ct = ChartType.histogram then some ⟨ChartType.histogram, df, x, none⟩
  else if ct = ChartType.pie then some ⟨ChartType.pie, df, x, none⟩
  else if ct = ChartType.box then y.map (fun yv => ⟨ChartType.box, df, x, some yv⟩)
  else if ct = ChartType.violin then y.map (fun yv => ⟨ChartType.violin, df, x, some yv⟩)
  else none

/-- What tab 2 renders: the chart when `fig` is set, otherwise the
`st.info` message asking for a Y variable. -/
def tab2Render (df : DataFrame) (x : String) (y : Option String)
    (ct : ChartType) (cumulative : Bool) : Except String Chart :=
  match edaChart df x y ct cumulative with
  | some c => .ok c
  | none => .error ("Select a Y variable for this chart type if needed.")

/-! ### Concrete tables used to instantiate the theorems -/

/-- Transaction table with seven salary rows on seven distinct dates whose
amounts are 0, 0, 0, 0, 0, 0, 7. -/
def dfPayrollCex : DataFrame :=
  ⟨["date", "category", "amount"],
   [[Cell.ts 1, Cell.text ("salary"), Cell.num 0],
    [Cell.ts 2, Cell.text ("salary"), Cell.num 0],
    [Cell.ts 3, Cell.text ("salary"), Cell.num 0],
    [Cell.ts 4, Cell.text ("salary"), Cell.num 0],
    [Cell.ts 5, Cell.text ("salary"), Cell.num 0],
    [Cell.ts 6, Cell.text ("salary"), Cell.num 0],
    [Cell.ts 7, Cell.text ("salary"), Cell.num 7]]⟩

/-- The key/measure pairs the payroll chart builds from `dfPayrollCex`. -/
def pairsCex : List (Option Cell × ℚ) :=
  keyedPairs (dfPayrollCex.filterEq ("category") (Cell.text ("salary"))) ("date") ("amount")

/-- One-row transaction table with a single salary payment. -/
def wdfPayroll : DataFrame :=
  ⟨["date", "category", "amount"],
   [[Cell.ts 1, Cell.text ("salary"), Cell.num 5]]⟩

/-- The key/measure pairs the payroll chart builds from `wdfPayroll`. -/
def pairsW : List (Option Cell × ℚ) :=
  keyedPairs (wdfPayroll.filterEq ("category") (Cell.text ("salary"))) ("date") ("amount")

/-- The payroll chart's output on `wdfPayroll`. -/
def gwPayroll : List (Cell × ℚ) := groupbySum Cell.leb pairsW

/-- Sample parse function for the date-coercion theorem: one recognized
text stamp with a fractional second, everything else unparseable. -/
def wparse : Cell → Option ℚ :=
  fun c =>
    match c with
    | Cell.text s => if s = "2024-01-01 10:20:30.5" then some (1704104430 + 1/2) else none
    | _ => none

/-- Two-row table with a `date` column holding one parseable and one
unparseable stamp. -/
def wdfDates : DataFrame :=
  ⟨["date", "amount"],
   [[Cell.text ("2024-01-01 10:20:30.5"), Cell.num 3],
    [Cell.text ("bad"), Cell.num 4]]⟩

/-- Three-row table for the cumulative-sum monotonicity witness. -/
def wdfCum : DataFrame :=
  ⟨["x", "y"],
   [[Cell.ts 2, Cell.num 1], [Cell.ts 1, Cell.num 2], [Cell.ts 1, Cell.num 3]]⟩

/-- SME loan table without the optional `date` column. -/
def wsme : DataFrame :=
  ⟨["credit_score", "repayment_status"],
   [[Cell.num 600, Cell.text ("on-time")], [Cell.num 580, Cell.text ("late")]]⟩

/-! ### Helper lemmas about the groupby-sum operator -/

/-- Every output pair of a groupby-sum carries exactly the per-key sum of
its key. -/
theorem groupbySum_val {K : Type} [DecidableEq K] (leb : K → K → Bool)
    (l : List (Option K × ℚ)) :
    ∀ p ∈ groupbySum leb l, p.2 = subsum l p.1 := by
  intro p hp
  simp only [groupbySum, List.mem_map] at hp
  obtain ⟨k, _, rfl⟩ := hp
  rfl

/-- The output keys of a groupby-sum are exactly the non-null keys present
in the input. -/
theorem groupbySum_keys {K : Type} [DecidableEq K] (leb : K → K → Bool)
    (l : List (Option K × ℚ)) :
    ∀ k : K, (k ∈ (groupbySum leb l).map Prod.fst ↔ some k ∈ l.map Prod.fst) := by
  intro k
  simp only [groupbySum, groupKeys, List.map_map]
  constructor
  · intro hk
    simp only [List.mem_map] at hk
    obtain ⟨a, ha, hak⟩ := hk
    have : a ∈ (l.filterMap Prod.fst).dedup :=
      ((List.perm_insertionSort _ _).mem_iff).mp ha
    rw [List.mem_dedup, List.mem_filterMap] at this
    obtain ⟨p, hp, hpk⟩ := this
    simp only [Function.comp] at hak
    subst hak
    exact List.mem_map.mpr ⟨p, hp, hpk⟩
  · intro hk
    obtain ⟨p, hp, hpk⟩ := List.mem_map.mp hk
    have : k ∈ (l.filterMap Prod.fst).dedup := by
      rw [List.mem_dedup, List.mem_filterMap]
      exact ⟨p, hp, hpk⟩
    have hs : k ∈ List.insertionSort (fun a b => leb a b = true)
        ((l.filterMap Prod.fst).dedup) :=
      ((List.perm_insertionSort _ _).mem_iff).mpr this
    exact List.mem_map.mpr ⟨k, hs, rfl⟩

/-- Unfolding of the per-key sum over a cons cell. -/
theorem subsum_cons {K : Type} [DecidableEq K] (o : Option K) (v : ℚ)
    (t : List (Option K × ℚ)) (k : K) :
    subsum ((o, v) :: t) k = (if o = some k then v else 0) + subsum t k := by
  simp only [subsum, List.filter_cons]
  split
  · next h =>
    rw [if_pos (by simpa using h)]
    simp
  · next h =>
    rw [if_neg (by simpa using h)]
    simp

/-- Summing a pointwise sum of two functions over a key list splits. -/
theorem sum_map_add {K : Type} (f g : K → ℚ) (ks : List K) :
    (ks.map (fun k => f k + g k)).sum = (ks.map f).sum + (ks.map g).sum := by
  induction ks with
  | nil => simp
  | cons a t ih => simp [ih]; ring

/-- A one-hot sum over keys not containing the hot key is zero. -/
theorem sum_map_ite_of_not_mem {K : Type} [DecidableEq K] (k0 : K) (v : ℚ)
    (ks : List K) (h : k0 ∉ ks) :
    (ks.map (fun k => if k0 = k then v else 0)).sum = 0 := by
  induction ks with
  | nil => simp
  | cons a t ih =>
    have hne : k0 ≠ a := fun e => h (e ▸ List.mem_cons_self a t)
    have ht : k0 ∉ t := fun e => h (List.mem_cons_of_mem a e)
    simp [hne, ih ht]

/-- A one-hot sum over a duplicate-free key list containing the hot key is
the hot value. -/
theorem sum_map_ite_of_mem {K : Type} [DecidableEq K] (k0 : K) (v : ℚ)
    (ks : List K) (hnd : ks.Nodup) (h : k0 ∈ ks) :
    (ks.map (fun k => if k0 = k then v else 0)).sum = v := by
  induction ks with
  | nil => simp at h
  | cons a t ih =>
    rcases List.mem_cons.mp h with rfl | ht
    · have : k0 ∉ t := (List.nodup_cons.mp hnd).1
      simp [sum_map_ite_of_not_mem k0 v t this]
    · have hne : k0 ≠ a := by
        rintro rfl
        exact (List.nodup_cons.mp hnd).1 ht
      simp only [List.map_cons, List.sum_cons, if_neg hne]
      rw [ih (List.nodup_cons.mp hnd).2 ht]
      simp

/-- Partition identity: summing the per-key sums over any duplicate-free
key list covering the non-null keys of `l` gives the total over rows with
a non-null key. -/
theorem sum_subsum {K : Type} [DecidableEq K] (l : List (Option K × ℚ)) :
    ∀ ks : List K, ks.Nodup → (∀ k : K, some k ∈ l.map Prod.fst → k ∈ ks) →
      (ks.map (subsum l)).sum = ((l.filter (fun p => p.1.isSome)).map Prod.snd).sum := by
  induction l with
  | nil =>
    intro ks _ _
    have h0 : ks.map (subsum ([] : List (Option K × ℚ))) = ks.map (fun _ => (0:ℚ)) :=
      List.map_congr_left (fun k _ => by simp [subsum])
    rw [h0]
    simp
  | cons p t ih =>
    intro ks hnd hcov
    obtain ⟨o, v⟩ := p
    have hmapeq : ks.map (subsum ((o, v) :: t)) =
        ks.map (fun k => (if o = some k then v else 0) + subsum t k) :=
      List.map_congr_left (fun k _ => subsum_cons o v t k)
    rw [hmapeq, sum_map_add]
    have hcovt : ∀ k : K, some k ∈ t.map Prod.fst → k ∈ ks := by
      intro k hk
      exact hcov k (by simp only [List.map_cons]; exact List.mem_cons_of_mem _ hk)
    cases o with
    | none =>
      have h0 : (ks.map (fun k => if (none : Option K) = some k then v else 0)).sum = 0 := by
        simp
      rw [h0, zero_add, ih ks hnd hcovt]
      simp [List.filter_cons]
    | some k0 =>
      have hk0 : k0 ∈ ks := hcov k0 (by simp)
      have h1 : (ks.map (fun k => if some k0 = some k then v else 0)).sum = v := by
        have he : (fun k => if some k0 = some k then v else (0:ℚ)) =
            (fun k => if k0 = k then v else 0) := by
          funext k
          simp
        rw [he, sum_map_ite_of_mem k0 v ks hnd hk0]
      rw [h1, ih ks hnd hcovt]
      simp [List.filter_cons]

/-- Mass conservation of the groupby-sum: the grouped sums add up to the
measure total over the rows with a non-null key. -/
theorem groupbySum_sum {K : Type} [DecidableEq K] (leb : K → K → Bool)
    (l : List (Option K × ℚ)) :
    ((groupbySum leb l).map Prod.snd).sum =
      ((l.filter (fun p => p.1.isSome)).map Prod.snd).sum := by
  have h1 : (groupbySum leb l).map Prod.snd = (groupKeys leb l).map (subsum l) := by
    simp [groupbySum, List.map_map, Function.comp]
  rw [h1]
  have hperm : (groupKeys leb l).Perm ((l.filterMap Prod.fst).dedup) :=
    List.perm_insertionSort _ _
  have hsum : ((groupKeys leb l).map (subsum l)).sum =
      (((l.filterMap Prod.fst).dedup).map (subsum l)).sum :=
    (hperm.map (subsum l)).sum_eq
  rw [hsum]
  refine sum_subsum l _ (List.nodup_dedup _) ?_
  intro k hk
  rw [List.mem_dedup, List.mem_filterMap]
  obtain ⟨p, hp, hpk⟩ := List.mem_map.mp hk
  exact ⟨p, hp, hpk⟩

/-! ### Helper lemmas about running totals -/

/-- Running totals keep the list length. -/
theorem runningTotals_length (acc : ℚ) (t : List ℚ) :
    (runningTotals acc t).length = t.length := by
  induction t generalizing acc with
  | nil => rfl
  | cons y t ih => simp [runningTotals, ih]

/-- With non-negative increments, every running total is at least the
starting accumulator. -/
theorem runningTotals_ge (t : List ℚ) :
    ∀ acc : ℚ, (∀ y ∈ t, 0 ≤ y) → ∀ z ∈ runningTotals acc t, acc ≤ z := by
  induction t with
  | nil => intro acc _ z hz; simp [runningTotals] at hz
  | cons y t ih =>
    intro acc h z hz
    rcases List.mem_cons.mp (by simpa [runningTotals] using hz) with rfl | hz'
    · exact le_add_of_nonneg_right (h y (List.mem_cons_self y t))
    · have : acc + y ≤ z :=
        ih (acc + y) (fun a ha => h a (List.mem_cons_of_mem y ha)) z hz'
      exact le_trans (le_add_of_nonneg_right (h y (List.mem_cons_self y t))) this

/-- With non-negative increments, running totals are non-decreasing. -/
theorem runningTotals_chain (t : List ℚ) :
    ∀ acc : ℚ, (∀ y ∈ t, 0 ≤ y) → List.Chain' (· ≤ ·) (runningTotals acc t) := by
  induction t with
  | nil => intro acc _; simp [runningTotals]
  | cons y t ih =>
    intro acc h
    rw [runningTotals, List.chain'_cons']
    constructor
    · intro z hz
      have hz' : z ∈ runningTotals (acc + y) t :=
        List.mem_of_mem_head? hz
      exact runningTotals_ge t (acc + y) (fun a ha => h a (List.mem_cons_of_mem y ha)) z hz'
    · exact ih (acc + y) (fun a ha => h a (List.mem_cons_of_mem y ha))

/-- The measure column of the cumulative-sum output is the running total of
the grouped sums. -/
theorem cumulativeSum_snd {K : Type} [DecidableEq K] (leb : K → K → Bool)
    (l : List (Option K × ℚ)) :
    (cumulativeSum leb l).map Prod.snd =
      runningTotals 0 ((groupbySum leb l).map Prod.snd) := by
  apply List.map_snd_zip
  simp [runningTotals_length]

/-- Per-key sums of a non-negative measure are non-negative. -/
theorem subsum_nonneg {K : Type} [DecidableEq K] (l : List (Option K × ℚ))
    (h : ∀ p ∈ l, 0 ≤ p.2) (k : K) : 0 ≤ subsum l k := by
  apply List.sum_nonneg
  intro x hx
  obtain ⟨p, hp, rfl⟩ := List.mem_map.mp hx
  exact h p (List.mem_of_mem_filter hp)

/-- The cumulative-sum output's measure column is non-decreasing whenever
every input measure is non-negative. -/
theorem cumulativeSum_chain {K : Type} [DecidableEq K] (leb : K → K → Bool)
    (l : List (Option K × ℚ)) (h : ∀ p ∈ l, 0 ≤ p.2) :
    List.Chain' (· ≤ ·) ((cumulativeSum leb l).map Prod.snd) := by
  rw [cumulativeSum_snd]
  apply runningTotals_chain
  intro y hy
  obtain ⟨p, hp, rfl⟩ := List.mem_map.mp hy
  rw [groupbySum_val leb l p hp]
  exact subsum_nonneg l h p.1

/-- Key/measure pairs built from a column whose cells read non-negative
have non-negative measures. -/
theorem keyedPairs_nonneg (df : DataFrame) (x y : String)
    (h : ∀ c ∈ df.colD y, 0 ≤ c.qval) :
    ∀ p ∈ keyedPairs df x y, 0 ≤ p.2 := by
  intro p hp
  simp only [keyedPairs, List.mem_map] at hp
  obtain ⟨q, hq, rfl⟩ := hp
  obtain ⟨a, b⟩ := q
  have hb : b ∈ (df.colD y).map Cell.qval := (List.of_mem_zip hq).2
  obtain ⟨c, hc, rfl⟩ := List.mem_map.mp hb
  exact h c hc

/-- Rewriting one column does not move any column index. -/
theorem mapCol_colIdx (df : DataFrame) (a c : String) (f : Cell → Cell) :
    (df.mapCol a f).colIdx c = df.colIdx c := rfl

/-- Inversion for the payroll chart: whenever it produces a plotted list,
that list is exactly the groupby-sum of the salary rows' date/amount
pairs. -/
theorem chart1Payroll_inv (df : DataFrame) (g : List (Cell × ℚ))
    (h : chart1Payroll df = .ok (some g)) :
    g = groupbySum Cell.leb
      (keyedPairs (df.filterEq ("category") (Cell.text ("salary"))) ("date") ("amount")) := by
  rw [chart1Payroll] at h
  by_cases h1 : "category" ∈ df.cols
  · rw [DataFrame.col, if_pos h1] at h
    simp only [Bind.bind, Except.bind] at h
    by_cases h2 : Cell.text ("salary") ∈ (df.colD ("category")).dedup
    · rw [if_pos h2] at h
      by_cases h3 : "date" ∈ (df.filterEq ("category") (Cell.text ("salary"))).cols
      · rw [DataFrame.col, if_pos h3] at h
        by_cases h4 : "amount" ∈ (df.filterEq ("category") (Cell.text ("salary"))).cols
        · rw [DataFrame.col, if_pos h4] at h
          simp only [Pure.pure, Except.pure, Except.ok.injEq, Option.some.injEq] at h
          exact h.symm
        · rw [DataFrame.col, if_neg h4] at h
          simp at h
      · rw [DataFrame.col, if_neg h3] at h
        simp at h
    · rw [if_neg h2] at h
      simp [Pure.pure, Except.pure] at h
  · rw [DataFrame.col, if_neg h1] at h
    simp only [Bind.bind, Except.bind] at h
    exact absurd h (by simp)

/-! ### The claims -/

/-- C1 counterexample: on a table with 7 date-buckets whose per-date salary
sums are 0,0,0,0,0,0,7 the payroll trend view outputs the per-date sums
themselves — every one of the first 6 points carries the defined value 0
(not "no value"), and the 7th point carries 7, which is not the mean 1 of
the first 7 sums.  So the view computes no 7-bucket trailing moving
average. -/
theorem payroll_rolling_average_cex :
    chart1Payroll dfPayrollCex =
      .ok (some [(Cell.ts 1, 0), (Cell.ts 2, 0), (Cell.ts 3, 0), (Cell.ts 4, 0),
                 (Cell.ts 5, 0), (Cell.ts 6, 0), (Cell.ts 7, 7)]) ∧
    ((7 : ℚ) ≠ (0 + 0 + 0 + 0 + 0 + 0 + 7) / 7) := by
  constructor
  · have eq1 : chart1Payroll dfPayrollCex =
        .ok (some ([Cell.ts 1, Cell.ts 2, Cell.ts 3, Cell.ts 4, Cell.ts 5, Cell.ts 6,
          Cell.ts 7].map (fun k => (k, subsum pairsCex k)))) := rfl
    rw [eq1]
    simp only [List.map_cons, List.map_nil]
    have e1 : subsum pairsCex (Cell.ts 1) = 0 := by show List.sum [(0:ℚ)] = 0; simp
    have e2 : subsum pairsCex (Cell.ts 2) = 0 := by show List.sum [(0:ℚ)] = 0; simp
    have e3 : subsum pairsCex (Cell.ts 3) = 0 := by show List.sum [(0:ℚ)] = 0; simp
    have e4 : subsum pairsCex (Cell.ts 4) = 0 := by show List.sum [(0:ℚ)] = 0; simp
    have e5 : subsum pairsCex (Cell.ts 5) = 0 := by show List.sum [(0:ℚ)] = 0; simp
    have e6 : subsum pairsCex (Cell.ts 6) = 0 := by show List.sum [(0:ℚ)] = 0; simp
    have e7 : subsum pairsCex (Cell.ts 7) = 7 := by show List.sum [(7:ℚ)] = 7; simp
    rw [e1, e2, e3, e4, e5, e6, e7]
  · norm_num

/-- C1 (amended): the payroll trend view, after filtering rows with
category == "salary" and grouping by date, outputs the per-date sums of
amount directly: every output point carries the defined per-date sum for
its date (no rolling average is computed, and no point is left without a
value), and the output's dates are exactly the non-null dates of the
salary rows. -/
theorem payroll_trend_plain_sums (df : DataFrame) (g : List (Cell × ℚ))
    (h : chart1Payroll df = .ok (some g)) :
    (∀ p ∈ g, p.2 =
      subsum (keyedPairs (df.filterEq ("category") (Cell.text ("salary")))
        ("date") ("amount")) p.1) ∧
    (∀ k : Cell, k ∈ g.map Prod.fst ↔
      some k ∈ (keyedPairs (df.filterEq ("category") (Cell.text ("salary")))
        ("date") ("amount")).map Prod.fst) := by
  have hg := chart1Payroll_inv df g h
  subst hg
  exact ⟨groupbySum_val _ _, groupbySum_keys _ _⟩

/-- C1 witness: the amended statement instantiated on the one-row salary
table. -/
theorem payroll_trend_plain_sums_witness :
    chart1Payroll wdfPayroll = .ok (some gwPayroll) ∧
    ((∀ p ∈ gwPayroll, p.2 = subsum pairsW p.1) ∧
     (∀ k : Cell, k ∈ gwPayroll.map Prod.fst ↔ some k ∈ pairsW.map Prod.fst)) :=
  ⟨rfl, payroll_trend_plain_sums wdfPayroll gwPayroll rfl⟩

/-- C2: Welch's two-sample mean-difference test reports
`InsufficientSample` — and no numeric outcome — whenever either sample has
fewer than 2 observations. -/
theorem welchTest_insufficient_sample (s1 s2 : List ℚ)
    (h : s1.length < 2 ∨ s2.length < 2) :
    welchTest s1 s2 = .error StatCondition.insufficientSample := by
  rw [welchTest, if_pos h]

/-- C2 witness: a one-observation first sample yields the condition. -/
theorem welchTest_insufficient_sample_witness :
    (([(1:ℚ)]).length < 2 ∨ ([(1:ℚ), 2, 3]).length < 2) ∧
    welchTest [(1:ℚ)] [(1:ℚ), 2, 3] = .error StatCondition.insufficientSample :=
  ⟨Or.inl (by decide), welchTest_insufficient_sample _ _ (Or.inl (by decide))⟩

/-- C3 (code bug evidence): on the empty table a missing/empty source
produces, the Key Insights tab aborts with the `KeyError` raised by the
unconditional `df["category"]` access of chart 1, instead of computing
empty views. -/
theorem tab1_empty_table_raises :
    tab1KeyInsights emptyDF emptyDF = .error ("KeyError: " ++ "category") := rfl

/-- C4: loading parses a `date` column cell-by-cell — each parse failure
becomes a null cell, each success is floored to a whole second — and every
other column (and the column list itself) is left untouched. -/
theorem date_coercion_normalizes (parse : Cell → Option ℚ) (df : DataFrame)
    (hwf : ∀ r ∈ df.rows, r.length = df.cols.length)
    (hd : "date" ∈ df.cols) :
    (coerceDates parse df).cols = df.cols ∧
    (coerceDates parse df).colD ("date") =
      (df.colD ("date")).map (coerceDateCell parse) ∧
    (∀ c ∈ df.cols, c ≠ "date" → (coerceDates parse df).colD c = df.colD c) := by
  have hcd : coerceDates parse df = df.mapCol ("date") (coerceDateCell parse) := by
    rw [coerceDates, if_pos hd]
  have hi : df.colIdx ("date") < df.cols.length :=
    List.indexOf_lt_length.mpr hd
  refine ⟨by rw [hcd]; rfl, ?_, ?_⟩
  · rw [hcd]
    simp only [DataFrame.colD, mapCol_colIdx]
    simp only [DataFrame.mapCol, List.map_map]
    apply List.map_congr_left
    intro r hr
    simp only [Function.comp]
    have hlen : df.colIdx ("date") < r.length := by
      rw [hwf r hr]
      exact hi
    simp only [List.getD_eq_getElem?_getD, List.getElem?_set, if_pos rfl, if_pos hlen]
    rfl
  · intro c hc hne
    rw [hcd]
    have hji : df.colIdx ("date") ≠ df.colIdx c := by
      intro he
      exact hne (((List.indexOf_inj hd hc).mp he).symm)
    simp only [DataFrame.colD, mapCol_colIdx]
    simp only [DataFrame.mapCol, List.map_map]
    apply List.map_congr_left
    intro r hr
    simp only [Function.comp, List.getD_eq_getElem?_getD]
    rw [List.getElem?_set_ne hji]

/-- C4 witness: the coercion theorem instantiated on a two-row table with
one parseable and one unparseable date stamp. -/
theorem date_coercion_normalizes_witness :
    (∀ r ∈ wdfDates.rows, r.length = wdfDates.cols.length) ∧
    ("date" ∈ wdfDates.cols) ∧
    ((coerceDates wparse wdfDates).cols = wdfDates.cols ∧
     (coerceDates wparse wdfDates).colD ("date") =
       (wdfDates.colD ("date")).map (coerceDateCell wparse) ∧
     (∀ c ∈ wdfDates.cols, c ≠ "date" →
       (coerceDates wparse wdfDates).colD c = wdfDates.colD c)) :=
  ⟨by decide, by decide,
   date_coercion_normalizes wparse wdfDates (by decide) (by decide)⟩

/-- C5 (code bug evidence): loading a missing source does return the
zero-row, zero-column table and a warning, but the caller does not continue
rendering — the Key Insights tab then terminates with a `KeyError` on its
first unconditional column access. -/
theorem load_csv_missing_caller_fails :
    (load_csv none).1 = emptyDF ∧
    (load_csv none).1.cols = [] ∧
    (load_csv none).1.rows = [] ∧
    (load_csv none).2 = ["File not found"] ∧
    tab1KeyInsights (coerceDates (fun _ => none) (load_csv none).1)
        (coerceDates (fun _ => none) (load_csv none).1) =
      .error ("KeyError: " ++ "category") :=
  ⟨rfl, rfl, rfl, rfl, rfl⟩

/-- C6: for every chart type that needs a y column (scatter, line, bar,
the two cumulative variants, box, violin), dispatching with no y column
renders no chart and reports the missing-parameter message instead. -/
theorem eda_missing_y_condition (df : DataFrame) (x : String) (cum : Bool) :
    tab2Render df x none ChartType.scatter cum =
      .error ("Select a Y variable for this chart type if needed.") ∧
    tab2Render df x none ChartType.line cum =
      .error ("Select a Y variable for this chart type if needed.") ∧
    tab2Render df x none ChartType.bar cum =
      .error ("Select a Y variable for this chart type if needed.") ∧
    tab2Render df x none ChartType.cumBar cum =
      .error ("Select a Y variable for this chart type if needed.") ∧
    tab2Render df x none ChartType.cumLine cum =
      .error ("Select a Y variable for this chart type if needed.") ∧
    tab2Render df x none ChartType.box cum =
      .error ("Select a Y variable for this chart type if needed.") ∧
    tab2Render df x none ChartType.violin cum =
      .error ("Select a Y variable for this chart type if needed.") :=
  ⟨rfl, rfl, rfl, rfl, rfl, rfl, rfl⟩

/-- C7: the groupby-sum operator conserves mass — its grouped sums add up
to the measure total over exactly the rows with a non-null grouping key —
and keeps exactly the distinct non-null keys of its input. -/
theorem groupbySum_mass_conservation {K : Type} [DecidableEq K]
    (leb : K → K → Bool) (l : List (Option K × ℚ)) :
    ((groupbySum leb l).map Prod.snd).sum =
      ((l.filter (fun p => p.1.isSome)).map Prod.snd).sum ∧
    (∀ k : K, k ∈ (groupbySum leb l).map Prod.fst ↔ some k ∈ l.map Prod.fst) :=
  ⟨groupbySum_sum leb l, groupbySum_keys leb l⟩

/-- C8: when the selected measure column reads non-negative everywhere,
the cumulative branch of the explorer produces a measure column that is
non-decreasing along its (ascending-key) output order. -/
theorem cumulative_branch_monotone (df : DataFrame) (x y : String)
    (h : ∀ c ∈ df.colD y, 0 ≤ c.qval) :
    List.Chain' (· ≤ ·) ((cumulativeSum Cell.leb (keyedPairs df x y)).map Prod.snd) :=
  cumulativeSum_chain Cell.leb _ (keyedPairs_nonneg df x y h)

/-- C8 witness: monotonicity on a three-row table with positive measures. -/
theorem cumulative_branch_monotone_witness :
    (∀ c ∈ wdfCum.colD ("y"), 0 ≤ c.qval) ∧
    List.Chain' (· ≤ ·)
      ((cumulativeSum Cell.leb (keyedPairs wdfCum ("x") ("y"))).map Prod.snd) := by
  have hw : ∀ c ∈ wdfCum.colD ("y"), 0 ≤ c.qval := by
    intro c hc
    rw [show wdfCum.colD ("y") = [Cell.num 1, Cell.num 2, Cell.num 3] from rfl] at hc
    simp only [List.mem_cons, List.not_mem_nil, or_false] at hc
    rcases hc with rfl | rfl | rfl <;> norm_num [Cell.qval]
  exact ⟨hw, cumulative_branch_monotone wdfCum ("x") ("y") hw⟩

/-- C9: on an SME table without the optional `date` column, the date-keyed
financing trend is skipped (no exception escapes) while the credit-score
histogram and the repayment-status counts still compute from their own
columns. -/
theorem sme_missing_date_guarded (sme : DataFrame)
    (hd : "date" ∉ sme.cols) (hc : "credit_score" ∈ sme.cols)
    (hr : "repayment_status" ∈ sme.cols) :
    smeSection sme = .ok (none, some (sme.colD ("credit_score")),
      some (value_counts (sme.colD ("repayment_status")))) := by
  simp [smeSection, DataFrame.col, hd, hc, hr, Bind.bind, Except.bind, Pure.pure, Except.pure]

/-- C9 witness: the SME guards instantiated on a two-row loan table without
a `date` column. -/
theorem sme_missing_date_guarded_witness :
    ("date" ∉ wsme.cols) ∧ ("credit_score" ∈ wsme.cols) ∧
    ("repayment_status" ∈ wsme.cols) ∧
    smeSection wsme = .ok (none, some (wsme.colD ("credit_score")),
      some (value_counts (wsme.colD ("repayment_status")))) :=
  ⟨by decide, by decide, by decide,
   sme_missing_date_guarded wsme (by decide) (by decide) (by decide)⟩

/-- C10: with a cumulative chart type selected but the `Cumulative?`
checkbox unchecked, the explorer plots the raw frame unchanged (no
grouping, no summing, no running total); the cumulative aggregation is
applied exactly when both the checkbox is ticked and a cumulative type is
selected, and a ticked checkbox leaves non-cumulative types untouched. -/
theorem eda_cumulative_gating (df : DataFrame) (x yv : String) :
    edaChart df x (some yv) ChartType.cumBar false =
      some ⟨ChartType.bar, df, x, some yv⟩ ∧
    edaChart df x (some yv) ChartType.cumLine false =
      some ⟨ChartType.line, df, x, some yv⟩ ∧
    edaChart df x (some yv) ChartType.cumBar true =
      some ⟨ChartType.bar, edaCumAgg df x yv, x, some yv⟩ ∧
    edaChart df x (some yv) ChartType.cumLine true =
      some ⟨ChartType.line, edaCumAgg df x yv, x, some yv⟩ ∧
    edaChart df x (some yv) ChartType.bar true =
      some ⟨ChartType.bar, df, x, some yv⟩ ∧
    edaChart df x (some yv) ChartType.line true =
      some ⟨ChartType.line, df, x, some yv⟩ ∧
    edaChart df x (some yv) ChartType.scatter true =
      some ⟨ChartType.scatter, df, x, some yv⟩ :=
  ⟨rfl, rfl, rfl, rfl, rfl, rfl, rfl⟩

end Jwaneng
